import Mathlib

/-!
Shallow embedding of the hypercron SQLite driver
(`src/driver/sqlite.driver.ts`) and proofs about its scheduling engine.

Modelling conventions:
* All instants and durations are `Nat` milliseconds since the epoch.
* `Date.now()` is passed explicitly as a `now : Nat` argument.
* The SQLite table `cron_jobs` is a `List JobRecord`; prepared statements
  become list operations (`filter`, `map`, `find?`) that mirror the SQL.
* The in-memory `Map`s (`handlers`, `activeJobs`) become association lists
  with explicit set/delete helpers matching JS `Map.set` / `Map.delete`.
* The external cron parser (`cron-parser`) is a parameter
  `cronNext : String → Nat → Option Nat` returning the next firing instant
  after `now`, or `none` when the expression does not parse.
* The behaviour of a job handler across retry attempts is a parameter
  `succ : Nat → Bool`: `succ k = true` iff the k-th invocation succeeds.
* JavaScript truthiness on nullable columns is modelled exactly:
  `null` and `0` are falsy for numbers, `null` and `""` for strings.
-/

namespace Hypercron

/-- Job status column; the schema CHECK constraint admits exactly these. -/
inductive Status where
  | active
  | paused
  | cancelled
  | completed
deriving DecidableEq, Repr

/-- One row of the `cron_jobs` table. -/
structure JobRecord where
  id : String
  cronExpression : Option String
  specificTime : Option Nat
  identifier : String
  status : Status
  nextRun : Nat
  lastRun : Option Nat
  runCount : Nat
  createdAt : Nat
  updatedAt : Nat
deriving DecidableEq, Repr

/-- The durable job table. -/
abbrev Store := List JobRecord

/-- The in-memory timer map `activeJobs : Map<string, Timeout>`; we keep the
identifier together with the `nextRun` instant the timer was armed for. -/
abbrev TimerSet := List (String × Nat)

/-- Model of `Map.set`: overwrite the entry for the key if present, else append. -/
def timersSet (ts : TimerSet) (key : String) (t : Nat) : TimerSet :=
  if ts.any (fun p => p.1 = key) then
    ts.map (fun p => if p.1 = key then (key, t) else p)
  else
    ts ++ [(key, t)]

/-- Model of `Map.delete` (also covers `clearTimeout` + removal in `clearJobExecution`). -/
def timersDelete (ts : TimerSet) (key : String) : TimerSet :=
  ts.filter (fun p => p.1 ≠ key)

/-- The `CronServiceConfig` option bag (`src/types.ts`): `none` models an
absent (`undefined`) option, `some v` an explicitly supplied value. -/
structure CronConfig where
  chunkSize : Option Nat := none
  refreshInterval : Option Nat := none
  lookAheadWindow : Option Nat := none
  autoCleanupEnabled : Option Bool := none
  autoCleanupInterval : Option Nat := none
  completedJobsRetentionDays : Option Nat := none
  cancelledJobsRetentionDays : Option Nat := none
  retryMaxAttempts : Option Nat := none
  retryBaseDelay : Option Nat := none
  retryMaxDelay : Option Nat := none
  hasOnError : Bool := false
deriving DecidableEq, Repr

/-- JS `a || d` on an optional number: `undefined` and `0` are falsy. -/
def orFalsy (v : Option Nat) (d : Nat) : Nat :=
  match v with
  | none => d
  | some n => if n = 0 then d else n

/-- JS `a ?? d` on an optional number: only `undefined` falls back. -/
def orNullish (v : Option Nat) (d : Nat) : Nat :=
  match v with
  | none => d
  | some n => n

/-- JS `a ?? d` on an optional boolean. -/
def orNullishB (v : Option Bool) (d : Bool) : Bool :=
  match v with
  | none => d
  | some b => b

/-- The resolved fields of a `SqliteDriver` after its constructor ran
(`sqlite.driver.ts` lines 44-63). -/
structure Settings where
  chunkSize : Nat
  refreshInterval : Nat
  lookAheadWindow : Nat
  autoCleanupEnabled : Bool
  autoCleanupInterval : Nat
  completedJobsRetentionDays : Nat
  cancelledJobsRetentionDays : Nat
  maxRetryAttempts : Nat
  retryBaseDelay : Nat
  retryMaxDelay : Nat
  hasOnError : Bool
deriving DecidableEq, Repr

/-- The `SqliteDriver` constructor: `||` for the three window options,
`??` for the cleanup and retry options. -/
def mkSettings (cfg : CronConfig) : Settings where
  chunkSize := orFalsy cfg.chunkSize 1000
  refreshInterval := orFalsy cfg.refreshInterval (24 * 60 * 60 * 1000)
  lookAheadWindow := orFalsy cfg.lookAheadWindow (25 * 60 * 60 * 1000)
  autoCleanupEnabled := orNullishB cfg.autoCleanupEnabled true
  autoCleanupInterval := orNullish cfg.autoCleanupInterval (24 * 60 * 60 * 1000)
  completedJobsRetentionDays := orNullish cfg.completedJobsRetentionDays 7
  cancelledJobsRetentionDays := orNullish cfg.cancelledJobsRetentionDays 30
  maxRetryAttempts := orNullish cfg.retryMaxAttempts 3
  retryBaseDelay := orNullish cfg.retryBaseDelay 1000
  retryMaxDelay := orNullish cfg.retryMaxDelay 30000
  hasOnError := cfg.hasOnError

/-- The mutable instance state of a `SqliteDriver`.  Booleans model the
presence of the interval handles and the database handle: `dbSet` is
whether the `db` field holds a handle object at all (it is never unset by
`stop`), `dbOpen` is whether that handle is open (`db.isOpen`). -/
structure DriverState where
  jobs : Store
  handlers : List String
  activeJobs : TimerSet
  isRunning : Bool
  refreshTimer : Bool
  autoCleanupTimer : Bool
  dbSet : Bool
  dbOpen : Bool
  dbInit : Bool
deriving DecidableEq, Repr

/-- Input type `ScheduleInput` (`string | number | Date`); a `Date` collapses to its
`getTime()` value before use, so two shapes remain. -/
inductive ScheduleInput where
  | cronExpr (s : String)
  | timestamp (t : Nat)
deriving DecidableEq, Repr

/-- Model of `ensureDatabase` / `init`: open the database and create the schema on
first use; a no-op when already initialised. -/
def ensureDb (s : DriverState) : DriverState :=
  if s.dbInit then s
  else { s with dbSet := true, dbOpen := true, dbInit := true }

/-- Model of `parseScheduleInput` (lines 144-172): a cron string is handed to the
parser (`none` result = the thrown `Invalid cron expression`); a timestamp
must be strictly in the future. -/
def parseScheduleInput (cronNext : String → Nat → Option Nat) (now : Nat) :
    ScheduleInput → Except String (Option String × Option Nat × Nat)
  | .cronExpr c =>
    match cronNext c now with
    | some nr => .ok (some c, none, nr)
    | none => .error ("Invalid cron expression: " ++ c)
  | .timestamp t =>
    if t ≤ now then .error "Specific time must be in the future"
    else .ok (none, some t, t)

/-- Insert a record into a list sorted by ascending `next_run`
(the `ORDER BY next_run` of the chunk query). -/
def insertByNextRun (j : JobRecord) : Store → Store
  | [] => [j]
  | k :: ks => if j.nextRun ≤ k.nextRun then j :: k :: ks else k :: insertByNextRun j ks

/-- Insertion sort by ascending `next_run`. -/
def sortByNextRun : Store → Store
  | [] => []
  | j :: js => insertByNextRun j (sortByNextRun js)

/-- The WHERE clause of the chunk-load query (lines 717-725):
`status = active AND next_run <= windowEnd AND next_run > now`. -/
def loaderPred (now windowEnd : Nat) (j : JobRecord) : Bool :=
  decide (j.status = Status.active) && decide (j.nextRun ≤ windowEnd)
    && decide (now < j.nextRun)

/-- The WHERE clause of `getJobsInWindow` (lines 361-365):
`status = active AND next_run <= windowEnd` — no lower bound. -/
def windowPred (windowEnd : Nat) (j : JobRecord) : Bool :=
  decide (j.status = Status.active) && decide (j.nextRun ≤ windowEnd)

/-- Model of `getJobsInWindow` (lines 357-368): count of active jobs with
`next_run ≤ now + lookAheadWindow`. -/
def getJobsInWindow (settings : Settings) (now : Nat) (jobs : Store) : Nat :=
  (jobs.filter (windowPred (now + settings.lookAheadWindow))).length

/-- The rows returned by the chunk-load query: filtered, ordered by
`next_run`, limited to `chunkSize`. -/
def chunkQuery (now windowEnd limit : Nat) (jobs : Store) : Store :=
  (sortByNextRun (jobs.filter (loaderPred now windowEnd))).take limit

/-- The arming loop at lines 732-736: one `scheduleJobExecution` per
returned row whose identifier has a registered handler. -/
def armTimers (hs : List String) (chunk : Store) (ts : TimerSet) : TimerSet :=
  chunk.foldl
    (fun acc j =>
      if hs.contains j.identifier then timersSet acc j.identifier j.nextRun
      else acc)
    ts

/-- Model of `loadAndScheduleChunk` (lines 708-737): clear every pending timer, then
arm one timer per returned row whose identifier has a registered handler. -/
def loadAndScheduleChunk (settings : Settings) (now : Nat) (s : DriverState) :
    DriverState :=
  let windowEnd := now + settings.lookAheadWindow
  let chunk := chunkQuery now windowEnd settings.chunkSize s.jobs
  { s with activeJobs := armTimers s.handlers chunk ([] : TimerSet) }

/-- Model of `start` (lines 744-760): set the running flag, run a chunk load, arm the
refresh interval, and start the auto-cleanup interval when enabled. -/
def startOp (settings : Settings) (now : Nat) (s : DriverState) : DriverState :=
  if s.isRunning then s
  else
    let s1 := ensureDb s
    let s2 := loadAndScheduleChunk settings now { s1 with isRunning := true }
    let s3 := { s2 with refreshTimer := true }
    { s3 with
      autoCleanupTimer :=
        if settings.autoCleanupEnabled && !s3.autoCleanupTimer then true
        else s3.autoCleanupTimer }

/-- Model of `stop` (lines 767-786): clear the refresh interval, the cleanup interval
and every pending timer, and close the database when it is open. -/
def stopOp (s : DriverState) : DriverState :=
  { s with
    isRunning := false
    refreshTimer := false
    autoCleanupTimer := false
    activeJobs := []
    dbOpen := false }

/-- Model of `destroy` (lines 84-98): await `stop()` first, then run
`if (this.db) { this.db.close(); this.db = undefined }` followed by the
registry clear, the timer-map clear and `isInitialized = false`.  Because
`stop()` has just closed any open handle (lines 783-785) and never unsets
the `db` field, the `close()` here acts on an already-closed handle whenever
the field is set, and node:sqlite then throws `database is not open`: the
throw propagates out of `destroy()` before the clears run.  Returns the
resulting state together with the thrown message, if any. -/
def destroyOp (s : DriverState) : DriverState × Option String :=
  let s1 := stopOp s
  if s1.dbSet then
    (s1, some "database is not open")
  else
    ({ s1 with handlers := [], activeJobs := [], dbInit := false }, none)

/-- Model of `INSERT OR REPLACE INTO cron_jobs` (lines 226-243): rows conflicting on
the primary key `id` or the unique `identifier` are replaced. -/
def upsertJob (jobs : Store) (r : JobRecord) : Store :=
  (jobs.filter (fun j => decide (j.identifier ≠ r.identifier) && decide (j.id ≠ r.id)))
    ++ [r]

/-- Model of `Map.set` on the handler registry, keyed by identifier. -/
def handlersSet (hs : List String) (ident : String) : List String :=
  if hs.contains ident then hs else hs ++ [ident]

/-- Model of `schedule` (lines 212-254): parse the input, register the handler,
upsert an `active` row with `run_count = 0`, arm a timer immediately when
`next_run` falls in the look-ahead window, and start the engine when it is
not running.  A parse failure is thrown before the handler registration and
before the insert (`Except.error`). -/
def scheduleOp (settings : Settings) (cronNext : String → Nat → Option Nat)
    (now : Nat) (s : DriverState) (input : ScheduleInput) (newId ident : String) :
    DriverState × Except String String :=
  let s0 := ensureDb s
  match parseScheduleInput cronNext now input with
  | .error e => (s0, .error e)
  | .ok (ce, st, nextRun) =>
    let s1 := { s0 with handlers := handlersSet s0.handlers ident }
    let jobRec : JobRecord :=
      { id := newId, cronExpression := ce, specificTime := st, identifier := ident
        status := .active, nextRun := nextRun, lastRun := none, runCount := 0
        createdAt := now, updatedAt := now }
    let s2 := { s1 with jobs := upsertJob s1.jobs jobRec }
    let s3 :=
      if nextRun ≤ now + settings.lookAheadWindow then
        { s2 with activeJobs := timersSet s2.activeJobs ident nextRun }
      else s2
    let s4 := if s3.isRunning then s3 else startOp settings now s3
    (s4, .ok newId)

/-- Model of `UPDATE cron_jobs SET status = ?, updated_at = ? WHERE identifier = ?`
— note: no condition on the current status. -/
def updateStatusRows (jobs : Store) (ident : String) (st : Status) (now : Nat) :
    Store :=
  jobs.map (fun j =>
    if j.identifier = ident then { j with status := st, updatedAt := now } else j)

/-- Model of `result.changes` of that UPDATE: the number of rows it touched. -/
def changesFor (jobs : Store) (ident : String) : Nat :=
  (jobs.filter (fun j => decide (j.identifier = ident))).length

/-- Model of `cancel` (lines 256-270): set status `cancelled`, clear the timer, drop
the handler; returns whether a row was touched. -/
def cancelOp (now : Nat) (s : DriverState) (ident : String) :
    DriverState × Bool :=
  let s0 := ensureDb s
  ({ s0 with
      jobs := updateStatusRows s0.jobs ident .cancelled now
      activeJobs := timersDelete s0.activeJobs ident
      handlers := s0.handlers.filter (fun h => h ≠ ident) },
    decide (0 < changesFor s0.jobs ident))

/-- Model of `pause` (lines 272-284): set status `paused`, clear the timer, keep the
handler. -/
def pauseOp (now : Nat) (s : DriverState) (ident : String) :
    DriverState × Bool :=
  let s0 := ensureDb s
  ({ s0 with
      jobs := updateStatusRows s0.jobs ident .paused now
      activeJobs := timersDelete s0.activeJobs ident },
    decide (0 < changesFor s0.jobs ident))

/-- Model of `resume` (lines 286-301): set status `active`; when a row was touched,
run a chunk load and return true. -/
def resumeOp (settings : Settings) (now : Nat) (s : DriverState) (ident : String) :
    DriverState × Bool :=
  let s0 := ensureDb s
  let s1 := { s0 with jobs := updateStatusRows s0.jobs ident .active now }
  if 0 < changesFor s0.jobs ident then (loadAndScheduleChunk settings now s1, true)
  else (s1, false)

/-- The retry loop of `executeJob` (lines 621-643),
`for (attempt = 1; attempt <= maxAttempts; attempt++)`, re-indexed on the
number of permitted attempts still remaining (`fuel = maxAttempts - attempt + 1`,
so `fuel = 0` is the loop exit and `fuel = 1` means `attempt = maxAttempts`).
Returns (number of handler invocations, backoff delays slept in order,
whether a `lastError` survived the loop).  The delay after a failed
non-final attempt is `min(baseDelay * 2 ^ (attempt - 1), maxDelay)`. -/
def retryLoopAux (succ : Nat → Bool) (baseDelay maxDelay : Nat) :
    Nat → Nat → Nat × List Nat × Bool
  | 0, _ => (0, [], false)
  | fuel + 1, attempt =>
    if succ attempt then (1, [], false)
    else if fuel = 0 then (1, [], true)
    else
      let d := min (baseDelay * 2 ^ (attempt - 1)) maxDelay
      let r := retryLoopAux succ baseDelay maxDelay fuel (attempt + 1)
      (r.1 + 1, d :: r.2.1, r.2.2)

/-- The whole retry loop, starting at `attempt = 1` with
`fuel = maxAttempts`. -/
def runRetries (succ : Nat → Bool) (baseDelay maxDelay maxAttempts : Nat) :
    Nat × List Nat × Bool :=
  retryLoopAux succ baseDelay maxDelay maxAttempts 1

/-- JS truthiness of the nullable `cron_expression` column. -/
def cronTruthy : Option String → Bool
  | none => false
  | some c => decide (c ≠ "")

/-- JS truthiness of the nullable `specific_time` column. -/
def timeTruthy : Option Nat → Bool
  | none => false
  | some t => decide (t ≠ 0)

/-- The gate of the post-execution SELECT (lines 658-661):
`WHERE identifier = ? AND status = active`. -/
def gateActive (ident : String) (j : JobRecord) : Bool :=
  decide (j.identifier = ident) && decide (j.status = Status.active)

/-- The `nextRun` computed at lines 670-680: the next parser instant for a
(truthy) cron expression, the stored `specific_time` for a (truthy) one-shot,
otherwise the JS `null` it was initialised to.  `none` also covers the
`calculateNextRun` throw on an unparsable expression. -/
def computeNextRun (cronNext : String → Nat → Option Nat) (now : Nat)
    (j : JobRecord) : Option Nat :=
  if cronTruthy j.cronExpression then cronNext (j.cronExpression.getD "") now
  else if timeTruthy j.specificTime then j.specificTime
  else none

/-- The `newStatus` computed at lines 670-680: stays `active` for a recurring
job, becomes `completed` for a one-shot. -/
def computeNewStatus (j : JobRecord) : Status :=
  if cronTruthy j.cronExpression then .active
  else if timeTruthy j.specificTime then .completed
  else .active

/-- Lines 657-706 of `executeJob`: re-read the row gated on
`status = active`; when the gate passes, write `last_run = now`,
`next_run`, `run_count + 1`, the new status and `updated_at = now`, then
either re-arm the timer (recurring, truthy `nextRun` within the window) or
remove the identifier from the timer map.  When the gate fails nothing is
touched.  A `none` from `computeNextRun` models the `calculateNextRun`
throw (or the NOT NULL constraint aborting the UPDATE): the row and the
timer map are left unchanged. -/
def postExecUpdate (settings : Settings) (cronNext : String → Nat → Option Nat)
    (now : Nat) (s : DriverState) (ident : String) : DriverState :=
  match s.jobs.find? (gateActive ident) with
  | none => s
  | some job =>
    match computeNextRun cronNext now job with
    | none => s
    | some nr =>
      let newStatus := computeNewStatus job
      let jobs1 := s.jobs.map (fun j =>
        if j.identifier = ident then
          { j with lastRun := some now, nextRun := nr, runCount := job.runCount + 1
                   status := newStatus, updatedAt := now }
        else j)
      let timers1 :=
        if cronTruthy job.cronExpression && decide (nr ≠ 0)
            && decide (nr ≤ now + settings.lookAheadWindow) then
          timersSet s.activeJobs ident nr
        else timersDelete s.activeJobs ident
      { s with jobs := jobs1, activeJobs := timers1 }

/-- The outcome of one firing: the state after `executeJob`, the number of
handler invocations, the backoff delays slept, and whether the final
attempt still failed (routed to `onError` / the default sink). -/
structure ExecResult where
  state : DriverState
  invocations : Nat
  delays : List Nat
  finalFailure : Bool
deriving DecidableEq, Repr

/-- Model of `executeJob` (lines 612-706): bail out when no handler is registered;
otherwise run the retry loop and then apply the gated post-execution
update.  The update does not depend on the retry outcome. -/
def executeJob (settings : Settings) (cronNext : String → Nat → Option Nat)
    (succ : Nat → Bool) (now : Nat) (s : DriverState) (ident : String) :
    ExecResult :=
  if s.handlers.contains ident then
    let r := runRetries succ settings.retryBaseDelay settings.retryMaxDelay
      settings.maxRetryAttempts
    { state := postExecUpdate settings cronNext now s ident
      invocations := r.1, delays := r.2.1, finalFailure := r.2.2 }
  else
    { state := s, invocations := 0, delays := [], finalFailure := false }

/-! ### Helper lemmas -/

theorem timersSet_length_le (ts : TimerSet) (k : String) (t : Nat) :
    (timersSet ts k t).length ≤ ts.length + 1 := by
  unfold timersSet
  split
  · simp
  · simp

theorem mem_timersSet (ts : TimerSet) (k : String) (t : Nat) (p : String × Nat)
    (hp : p ∈ timersSet ts k t) : p ∈ ts ∨ p.1 = k := by
  unfold timersSet at hp
  split at hp
  · rcases List.mem_map.mp hp with ⟨q, hq, hqe⟩
    by_cases h : q.1 = k
    · right
      simp only [h, if_pos] at hqe
      rw [← hqe]
    · left
      simp only [h, if_neg, not_false_iff] at hqe
      rw [← hqe]
      exact hq
  · rcases List.mem_append.mp hp with h | h
    · left; exact h
    · right
      simp only [List.mem_singleton] at h
      rw [h]

theorem armTimers_length_le (hs : List String) (chunk : Store) (ts : TimerSet) :
    (armTimers hs chunk ts).length ≤ ts.length + chunk.length := by
  induction chunk generalizing ts with
  | nil => simp [armTimers]
  | cons j js ih =>
    simp only [armTimers, List.foldl_cons, List.length_cons]
    by_cases h : hs.contains j.identifier
    · simp only [h, if_pos]
      calc (armTimers hs js (timersSet ts j.identifier j.nextRun)).length
          ≤ (timersSet ts j.identifier j.nextRun).length + js.length := ih _
        _ ≤ ts.length + 1 + js.length := by
            exact Nat.add_le_add_right (timersSet_length_le ts j.identifier j.nextRun) _
        _ = ts.length + (js.length + 1) := by omega
    · simp only [h, if_neg, not_false_iff]
      calc (armTimers hs js ts).length ≤ ts.length + js.length := ih ts
        _ ≤ ts.length + (js.length + 1) := by omega

theorem mem_armTimers (hs : List String) (chunk : Store) (ts : TimerSet)
    (p : String × Nat) (hp : p ∈ armTimers hs chunk ts) :
    p ∈ ts ∨ ∃ j ∈ chunk, p.1 = j.identifier := by
  induction chunk generalizing ts with
  | nil => exact Or.inl hp
  | cons j js ih =>
    simp only [armTimers, List.foldl_cons] at hp
    by_cases h : hs.contains j.identifier
    · simp only [h, if_pos] at hp
      rcases ih (timersSet ts j.identifier j.nextRun) hp with h1 | ⟨q, hq, he⟩
      · rcases mem_timersSet ts j.identifier j.nextRun p h1 with h2 | h2
        · exact Or.inl h2
        · exact Or.inr ⟨j, List.mem_cons_self j js, h2⟩
      · exact Or.inr ⟨q, List.mem_cons_of_mem j hq, he⟩
    · simp only [h, if_neg, not_false_iff] at hp
      rcases ih ts hp with h1 | ⟨q, hq, he⟩
      · exact Or.inl h1
      · exact Or.inr ⟨q, List.mem_cons_of_mem j hq, he⟩

theorem mem_insertByNextRun (a j : JobRecord) (l : Store) :
    a ∈ insertByNextRun j l ↔ a = j ∨ a ∈ l := by
  induction l with
  | nil => simp [insertByNextRun]
  | cons k ks ih =>
    unfold insertByNextRun
    split
    · simp only [List.mem_cons]
    · simp only [List.mem_cons, ih]
      tauto

theorem mem_sortByNextRun (a : JobRecord) (l : Store) :
    a ∈ sortByNextRun l ↔ a ∈ l := by
  induction l with
  | nil => simp [sortByNextRun]
  | cons j js ih =>
    simp only [sortByNextRun, mem_insertByNextRun, ih, List.mem_cons]

theorem chunkQuery_subset (now windowEnd limit : Nat) (jobs : Store) :
    ∀ a ∈ chunkQuery now windowEnd limit jobs,
      a ∈ jobs ∧ loaderPred now windowEnd a = true := by
  intro a ha
  have h1 : a ∈ sortByNextRun (jobs.filter (loaderPred now windowEnd)) :=
    List.take_subset limit _ ha
  have h2 : a ∈ jobs.filter (loaderPred now windowEnd) :=
    (mem_sortByNextRun a _).mp h1
  exact ⟨List.mem_of_mem_filter h2, List.of_mem_filter h2⟩

theorem retryLoopAux_fst_le (succ : Nat → Bool) (b m : Nat) :
    ∀ fuel attempt, (retryLoopAux succ b m fuel attempt).1 ≤ fuel := by
  intro fuel
  induction fuel with
  | zero => intro attempt; simp [retryLoopAux]
  | succ f ih =>
    intro attempt
    unfold retryLoopAux
    split
    · simp
    · split
      · simp
      · simpa using Nat.add_le_add_right (ih (attempt + 1)) 1

theorem retryLoopAux_fst_pos (succ : Nat → Bool) (b m : Nat) :
    ∀ fuel attempt, 1 ≤ fuel → 1 ≤ (retryLoopAux succ b m fuel attempt).1 := by
  intro fuel attempt hf
  match fuel, hf with
  | f + 1, _ =>
    unfold retryLoopAux
    split
    · simp
    · split
      · simp
      · simp

theorem retryLoopAux_delays (succ : Nat → Bool) (b m : Nat) :
    ∀ fuel attempt, 1 ≤ attempt →
      (retryLoopAux succ b m fuel attempt).2.1
        = (List.range ((retryLoopAux succ b m fuel attempt).1 - 1)).map
            (fun i => min (b * 2 ^ (attempt - 1 + i)) m) := by
  intro fuel
  induction fuel with
  | zero => intro attempt ha; simp [retryLoopAux]
  | succ f ih =>
    intro attempt ha
    unfold retryLoopAux
    split
    · simp
    · split
      · simp
      · rename_i hsucc hf
        simp only
        have hpos : 1 ≤ (retryLoopAux succ b m f (attempt + 1)).1 :=
          retryLoopAux_fst_pos succ b m f (attempt + 1) (by omega)
        set r := retryLoopAux succ b m f (attempt + 1) with hr
        have hk : r.1 + 1 - 1 = (r.1 - 1) + 1 := by omega
        rw [hk, List.range_succ_eq_map, List.map_cons, List.map_map]
        have hhead : min (b * 2 ^ (attempt - 1 + 0)) m = min (b * 2 ^ (attempt - 1)) m := by
          norm_num
        have htail : r.2.1
            = (List.range (r.1 - 1)).map
                ((fun i => min (b * 2 ^ (attempt - 1 + i)) m) ∘ Nat.succ) := by
          rw [ih (attempt + 1) (by omega)]
          apply List.map_congr_left
          intro i _
          simp only [Function.comp]
          have he : attempt - 1 + Nat.succ i = attempt + 1 - 1 + i := by omega
          rw [he]
        rw [← htail]
        simp [hhead]

theorem ensureDb_jobs (s : DriverState) : (ensureDb s).jobs = s.jobs := by
  unfold ensureDb
  split <;> rfl

theorem mem_updateStatusRows (jobs : Store) (ident : String) (st : Status)
    (now : Nat) (q : JobRecord) (hq : q ∈ updateStatusRows jobs ident st now)
    (hqid : q.identifier = ident) : q.status = st := by
  unfold updateStatusRows at hq
  rcases List.mem_map.mp hq with ⟨j0, hj0, he⟩
  by_cases h : j0.identifier = ident
  · rw [if_pos h] at he
    rw [← he]
  · rw [if_neg h] at he
    rw [← he] at hqid
    exact absurd hqid h

theorem changesFor_pos (jobs : Store) (ident : String) (j : JobRecord)
    (hj : j ∈ jobs) (hid : j.identifier = ident) : 0 < changesFor jobs ident := by
  unfold changesFor
  exact List.length_pos_of_mem (List.mem_filter.mpr ⟨hj, by simp [hid]⟩)

theorem loadAndScheduleChunk_jobs (settings : Settings) (now : Nat)
    (s : DriverState) : (loadAndScheduleChunk settings now s).jobs = s.jobs := rfl

/-- Settings as resolved from an empty configuration; used to instantiate
witnesses on concrete inputs. -/
def sampleSettings : Settings :=
  { chunkSize := 1000, refreshInterval := 86400000, lookAheadWindow := 90000000
    autoCleanupEnabled := true, autoCleanupInterval := 86400000
    completedJobsRetentionDays := 7, cancelledJobsRetentionDays := 30
    maxRetryAttempts := 3, retryBaseDelay := 1000, retryMaxDelay := 30000
    hasOnError := false }

/-- A concrete stand-in for the external cron parser: the next firing is
always 300 ms after the anchor. -/
def sampleCronNext : String → Nat → Option Nat := fun _ n => some (n + 300)

/-! ### Claims -/

/-- Claim C9: a configuration supplying 0 for chunkSize, refreshInterval or
lookAheadWindow is treated as if the option were absent, because the
constructor combines these three options with the JS `||` operator, for
which 0 is falsy; the documented defaults 1000, 86 400 000 ms and
90 000 000 ms are used instead. -/
theorem claim_c9_defaults (cfg : CronConfig) :
    (cfg.chunkSize = some 0 → (mkSettings cfg).chunkSize = 1000)
    ∧ (cfg.refreshInterval = some 0 → (mkSettings cfg).refreshInterval = 86400000)
    ∧ (cfg.lookAheadWindow = some 0 → (mkSettings cfg).lookAheadWindow = 90000000) := by
  refine ⟨fun h => ?_, fun h => ?_, fun h => ?_⟩ <;> simp [mkSettings, orFalsy, h]

/-- A configuration that explicitly sets the three window options to 0. -/
def zeroCfg : CronConfig :=
  { chunkSize := some 0, refreshInterval := some 0, lookAheadWindow := some 0 }

/-- Witness for C9 at the configuration that sets all three options to 0. -/
theorem claim_c9_defaults_witness :
    (mkSettings zeroCfg).chunkSize = 1000
    ∧ (mkSettings zeroCfg).refreshInterval = 86400000
    ∧ (mkSettings zeroCfg).lookAheadWindow = 90000000 :=
  ⟨(claim_c9_defaults zeroCfg).1 rfl, (claim_c9_defaults zeroCfg).2.1 rfl,
    (claim_c9_defaults zeroCfg).2.2 rfl⟩

/-- Claim C5, amended: a chunk load itself always leaves at most `chunkSize`
armed timers (it clears the timer map and arms at most the `LIMIT chunkSize`
rows of its query); the original claim that no other path grows the set past
that bound is refuted by `claim_c5_bound_counterexample`. -/
theorem claim_c5_bound (settings : Settings) (now : Nat) (s : DriverState) :
    (loadAndScheduleChunk settings now s).activeJobs.length ≤ settings.chunkSize := by
  show (armTimers s.handlers
      (chunkQuery now (now + settings.lookAheadWindow) settings.chunkSize s.jobs)
      ([] : TimerSet)).length ≤ settings.chunkSize
  calc (armTimers s.handlers
        (chunkQuery now (now + settings.lookAheadWindow) settings.chunkSize s.jobs)
        ([] : TimerSet)).length
      ≤ ([] : TimerSet).length
          + (chunkQuery now (now + settings.lookAheadWindow) settings.chunkSize
              s.jobs).length := armTimers_length_le _ _ _
    _ ≤ settings.chunkSize := by
        simp only [List.length_nil, Nat.zero_add, chunkQuery]
        rw [List.length_take]
        exact Nat.min_le_left _ _

/-- Driver settings with `chunkSize = 1`, for the C5 counterexample. -/
def tinySettings : Settings :=
  { chunkSize := 1, refreshInterval := 1000, lookAheadWindow := 100
    autoCleanupEnabled := false, autoCleanupInterval := 1000
    completedJobsRetentionDays := 7, cancelledJobsRetentionDays := 30
    maxRetryAttempts := 3, retryBaseDelay := 1000, retryMaxDelay := 30000
    hasOnError := false }

/-- A one-shot job already stored and armed. -/
def jobA : JobRecord :=
  { id := "uuid-a", cronExpression := none, specificTime := some 10
    identifier := "a", status := .active, nextRun := 10, lastRun := none
    runCount := 0, createdAt := 0, updatedAt := 0 }

/-- A running driver with one armed timer and `chunkSize = 1`. -/
def oneTimerState : DriverState :=
  { jobs := [jobA], handlers := ["a"], activeJobs := [("a", 10)]
    isRunning := true, refreshTimer := true, autoCleanupTimer := false
    dbSet := true, dbOpen := true, dbInit := true }

/-- Counterexample to C5 as stated: with `chunkSize = 1` and one armed
timer, scheduling a second job due inside the look-ahead window arms it
immediately (line 245-247) with no bound check, leaving 2 > chunkSize
timers armed. -/
theorem claim_c5_bound_counterexample :
    oneTimerState.activeJobs.length ≤ tinySettings.chunkSize
    ∧ ¬ ((scheduleOp tinySettings (fun _ _ => none) 5 oneTimerState
          (.timestamp 20) "uuid-b" "b").1.activeJobs.length ≤ tinySettings.chunkSize) := by
  decide

/-- Claim C8, amended: stop() stops the refresh loop and the cleanup loop
and cancels every pending timer, leaving the job table and the handler
registry intact — but it also closes the store handle when it is open
(lines 783-785), so the handle does not remain acquired after stop().
Consequently destroy(), which calls stop() and then close() on the still-set
handle, throws `database is not open` on any driver whose handle was ever
acquired, leaving the state exactly as stop() left it; only on a driver
that never acquired a handle does destroy() reach the registry clear and
the initialised-flag reset. -/
theorem claim_c8_stop_effects (s : DriverState) :
    (stopOp s).isRunning = false ∧ (stopOp s).refreshTimer = false
    ∧ (stopOp s).autoCleanupTimer = false ∧ (stopOp s).activeJobs = []
    ∧ (stopOp s).dbOpen = false
    ∧ (stopOp s).jobs = s.jobs ∧ (stopOp s).handlers = s.handlers
    ∧ (s.dbSet = true →
        (destroyOp s).2 = some "database is not open"
        ∧ (destroyOp s).1 = stopOp s)
    ∧ (s.dbSet = false →
        (destroyOp s).2 = none
        ∧ (destroyOp s).1.handlers = [] ∧ (destroyOp s).1.dbInit = false) := by
  refine ⟨rfl, rfl, rfl, rfl, rfl, rfl, rfl, ?_, ?_⟩
  · intro h
    have h2 : (stopOp s).dbSet = true := h
    simp [destroyOp, h2]
  · intro h
    have h2 : (stopOp s).dbSet = false := h
    simp [destroyOp, h2]

/-- A running driver with an open store handle. -/
def openDbState : DriverState :=
  { jobs := [], handlers := ["job-1"], activeJobs := [("job-1", 10)]
    isRunning := true, refreshTimer := true, autoCleanupTimer := true
    dbSet := true, dbOpen := true, dbInit := true }

/-- Counterexample to C8 as stated: after stop() on a driver whose store
handle is open, the handle is closed — it does not remain acquired until
destroy(). -/
theorem claim_c8_stop_counterexample :
    openDbState.dbOpen = true ∧ (stopOp openDbState).dbOpen = false := by
  decide

/-- Witness for the amended C8 on the initialised driver: destroy() throws
the double-close error and leaves the state exactly as stop() left it. -/
theorem claim_c8_stop_effects_witness :
    (destroyOp openDbState).2 = some "database is not open"
    ∧ (destroyOp openDbState).1 = stopOp openDbState := by
  have h := claim_c8_stop_effects openDbState
  exact h.2.2.2.2.2.2.2.1 rfl

/-- Claim C1, amended: the UPDATE statements of cancel, pause and resume
filter only on the identifier, not on the current status, so they set the
status of every record with the given identifier — including records in the
terminal statuses cancelled and completed — to cancelled, paused and active
respectively, and return true whenever a record with that identifier
exists.  Terminal records are not protected from further transitions. -/
theorem claim_c1_no_terminal_guard (settings : Settings) (now : Nat)
    (s : DriverState) (ident : String) (j : JobRecord)
    (hj : j ∈ s.jobs) (hid : j.identifier = ident) :
    (∀ q ∈ (cancelOp now s ident).1.jobs, q.identifier = ident →
        q.status = Status.cancelled)
    ∧ (∀ q ∈ (pauseOp now s ident).1.jobs, q.identifier = ident →
        q.status = Status.paused)
    ∧ (∀ q ∈ (resumeOp settings now s ident).1.jobs, q.identifier = ident →
        q.status = Status.active)
    ∧ (cancelOp now s ident).2 = true
    ∧ (pauseOp now s ident).2 = true
    ∧ (resumeOp settings now s ident).2 = true := by
  have hj0 : j ∈ (ensureDb s).jobs := by rw [ensureDb_jobs]; exact hj
  have hch : 0 < changesFor (ensureDb s).jobs ident := changesFor_pos _ _ j hj0 hid
  refine ⟨?_, ?_, ?_, ?_, ?_, ?_⟩
  · intro q hq hqid
    exact mem_updateStatusRows _ _ _ _ q hq hqid
  · intro q hq hqid
    exact mem_updateStatusRows _ _ _ _ q hq hqid
  · intro q hq hqid
    unfold resumeOp at hq
    rw [if_pos hch] at hq
    rw [loadAndScheduleChunk_jobs] at hq
    exact mem_updateStatusRows _ _ _ _ q hq hqid
  · unfold cancelOp
    simp only [decide_eq_true_eq]
    exact hch
  · unfold pauseOp
    simp only [decide_eq_true_eq]
    exact hch
  · unfold resumeOp
    rw [if_pos hch]

/-- A completed one-shot job (terminal status). -/
def doneJob : JobRecord :=
  { id := "uuid-1", cronExpression := none, specificTime := some 50
    identifier := "report", status := .completed, nextRun := 50
    lastRun := some 55, runCount := 1, createdAt := 0, updatedAt := 55 }

/-- A driver whose only stored job is the completed one. -/
def doneState : DriverState :=
  { jobs := [doneJob], handlers := [], activeJobs := []
    isRunning := true, refreshTimer := true, autoCleanupTimer := false
    dbSet := true, dbOpen := true, dbInit := true }

/-- Counterexample to C1 as stated: pause() on a record whose status is the
terminal completed performs a status transition — the record ends up
paused and the call reports success. -/
theorem claim_c1_counterexample :
    doneJob.status = Status.completed
    ∧ (pauseOp 100 doneState "report").1.jobs.map JobRecord.status = [Status.paused]
    ∧ (pauseOp 100 doneState "report").2 = true := by
  decide

/-- A cancelled job used to instantiate the amended C1 on a terminal record. -/
def gcJob : JobRecord :=
  { id := "uuid-2", cronExpression := some "0 0 * * *", specificTime := none
    identifier := "w", status := .cancelled, nextRun := 60, lastRun := none
    runCount := 0, createdAt := 0, updatedAt := 20 }

/-- Driver holding only the cancelled job. -/
def gcState : DriverState :=
  { jobs := [gcJob], handlers := [], activeJobs := []
    isRunning := true, refreshTimer := true, autoCleanupTimer := false
    dbSet := true, dbOpen := true, dbInit := true }

/-- Witness for the amended C1 on a concrete terminal record. -/
theorem claim_c1_no_terminal_guard_witness :
    (cancelOp 30 gcState "w").2 = true ∧ (pauseOp 30 gcState "w").2 = true
    ∧ (resumeOp sampleSettings 30 gcState "w").2 = true := by
  have h := claim_c1_no_terminal_guard sampleSettings 30 gcState "w" gcJob
    (by decide) (by decide)
  exact ⟨h.2.2.2.1, h.2.2.2.2.1, h.2.2.2.2.2⟩

/-- Claim C2: when the post-execution read finds no active record for the
identifier (the job was paused or cancelled while the handler ran), the
firing leaves the whole driver state unchanged — no column of the record is
written and no timer is re-armed. -/
theorem claim_c2_gate_frame (settings : Settings)
    (cronNext : String → Nat → Option Nat) (succ : Nat → Bool) (now : Nat)
    (s : DriverState) (ident : String)
    (hgate : ∀ j ∈ s.jobs, j.identifier = ident → j.status ≠ Status.active) :
    (executeJob settings cronNext succ now s ident).state = s := by
  have hfind : s.jobs.find? (gateActive ident) = none := by
    apply List.find?_eq_none.mpr
    intro j hj
    unfold gateActive
    simp only [Bool.and_eq_true, decide_eq_true_eq, not_and]
    exact hgate j hj
  unfold executeJob
  split
  · show postExecUpdate settings cronNext now s ident = s
    unfold postExecUpdate
    rw [hfind]
  · rfl

/-- A paused job whose handler is still registered and whose timer fired. -/
def pausedJob : JobRecord :=
  { id := "uuid-p", cronExpression := some "* * * * *", specificTime := none
    identifier := "p", status := .paused, nextRun := 100, lastRun := none
    runCount := 4, createdAt := 0, updatedAt := 90 }

/-- Driver state at the post-execution read after `p` was paused mid-run. -/
def pausedState : DriverState :=
  { jobs := [pausedJob], handlers := ["p"], activeJobs := [("p", 100)]
    isRunning := true, refreshTimer := true, autoCleanupTimer := false
    dbSet := true, dbOpen := true, dbInit := true }

/-- Witness for C2: executing the fired job whose record was paused leaves
the state untouched. -/
theorem claim_c2_gate_frame_witness :
    (executeJob sampleSettings sampleCronNext (fun _ => true) 100 pausedState
      "p").state = pausedState :=
  claim_c2_gate_frame sampleSettings sampleCronNext (fun _ => true) 100
    pausedState "p" (by decide)

/-- Claim C6: scheduling an absolute timestamp `t ≤ now` fails with the
TIME_IN_PAST error, and any schedule call whose input parsing fails (invalid
cron expression or past timestamp) raises the error before any write — the
job table is exactly what it was before the call. -/
theorem claim_c6_parse_errors (settings : Settings)
    (cronNext : String → Nat → Option Nat) (now : Nat) (s : DriverState)
    (newId ident : String) (t : Nat) (ht : t ≤ now) :
    (scheduleOp settings cronNext now s (.timestamp t) newId ident).2
        = Except.error "Specific time must be in the future"
    ∧ ∀ input e, parseScheduleInput cronNext now input = Except.error e →
        (scheduleOp settings cronNext now s input newId ident).1.jobs = s.jobs
        ∧ (scheduleOp settings cronNext now s input newId ident).2
            = Except.error e := by
  have hstep : ∀ input e, parseScheduleInput cronNext now input = Except.error e →
      (scheduleOp settings cronNext now s input newId ident)
        = (ensureDb s, Except.error e) := by
    intro input e he
    unfold scheduleOp
    rw [he]
  have hpast : parseScheduleInput cronNext now (.timestamp t)
      = Except.error "Specific time must be in the future" := by
    simp [parseScheduleInput, ht]
  refine ⟨?_, ?_⟩
  · rw [hstep _ _ hpast]
  · intro input e he
    rw [hstep _ _ he]
    exact ⟨ensureDb_jobs s, rfl⟩

/-- Witness for C6: scheduling the past instant 50 at now = 100 on a driver
with an empty table fails with the TIME_IN_PAST error. -/
theorem claim_c6_parse_errors_witness :
    (scheduleOp sampleSettings sampleCronNext 100
      { jobs := [], handlers := [], activeJobs := [], isRunning := false
        refreshTimer := false, autoCleanupTimer := false, dbSet := false
        dbOpen := false, dbInit := false }
      (.timestamp 50) "uuid-6" "w").2
      = Except.error "Specific time must be in the future" :=
  (claim_c6_parse_errors sampleSettings sampleCronNext 100 _ "uuid-6" "w" 50
    (by decide)).1

theorem executeJob_eq (settings : Settings)
    (cronNext : String → Nat → Option Nat) (succ : Nat → Bool) (now : Nat)
    (s : DriverState) (ident : String)
    (hh : s.handlers.contains ident = true) :
    executeJob settings cronNext succ now s ident
      = { state := postExecUpdate settings cronNext now s ident
          invocations := (runRetries succ settings.retryBaseDelay
            settings.retryMaxDelay settings.maxRetryAttempts).1
          delays := (runRetries succ settings.retryBaseDelay
            settings.retryMaxDelay settings.maxRetryAttempts).2.1
          finalFailure := (runRetries succ settings.retryBaseDelay
            settings.retryMaxDelay settings.maxRetryAttempts).2.2 } := by
  unfold executeJob
  rw [hh]
  simp

theorem runRetries_bounds (succ : Nat → Bool) (b m maxA : Nat)
    (hmax : 1 ≤ maxA) :
    1 ≤ (runRetries succ b m maxA).1
    ∧ (runRetries succ b m maxA).1 ≤ maxA
    ∧ (maxA = 1 → (runRetries succ b m maxA).1 = 1
        ∧ (runRetries succ b m maxA).2.1 = [])
    ∧ ∀ k, 1 ≤ k → k < (runRetries succ b m maxA).1 →
        (runRetries succ b m maxA).2.1[k - 1]?
          = some (min m (b * 2 ^ (k - 1))) := by
  refine ⟨retryLoopAux_fst_pos succ b m maxA 1 hmax,
    retryLoopAux_fst_le succ b m maxA 1, ?_, ?_⟩
  · intro h1
    subst h1
    unfold runRetries retryLoopAux
    split
    · exact ⟨rfl, rfl⟩
    · simp
  · intro k hk1 hk2
    have hd := retryLoopAux_delays succ b m maxA 1 (le_refl 1)
    unfold runRetries at hk2 ⊢
    rw [hd, List.getElem?_map]
    have hlt : k - 1 < (retryLoopAux succ b m maxA 1).1 - 1 := by omega
    rw [List.getElem?_range hlt]
    have he : 1 - 1 + (k - 1) = k - 1 := by omega
    simp only [Option.map_some', he]
    rw [Nat.min_comm]

/-- Claim C4: with a handler registered, one firing invokes the handler
between 1 and retry.maxAttempts times; maxAttempts = 1 yields exactly one
invocation and no backoff sleep; and the sleep taken before retry attempt
k+1 is exactly min(retry.maxDelay, retry.baseDelay * 2 ^ (k - 1)) ms. -/
theorem claim_c4_retry_bounds (settings : Settings)
    (cronNext : String → Nat → Option Nat) (succ : Nat → Bool) (now : Nat)
    (s : DriverState) (ident : String)
    (hh : s.handlers.contains ident = true)
    (hmax : 1 ≤ settings.maxRetryAttempts) :
    1 ≤ (executeJob settings cronNext succ now s ident).invocations
    ∧ (executeJob settings cronNext succ now s ident).invocations
        ≤ settings.maxRetryAttempts
    ∧ (settings.maxRetryAttempts = 1 →
        (executeJob settings cronNext succ now s ident).invocations = 1
        ∧ (executeJob settings cronNext succ now s ident).delays = [])
    ∧ ∀ k, 1 ≤ k →
        k < (executeJob settings cronNext succ now s ident).invocations →
        (executeJob settings cronNext succ now s ident).delays[k - 1]?
          = some (min settings.retryMaxDelay
              (settings.retryBaseDelay * 2 ^ (k - 1))) := by
  rw [executeJob_eq settings cronNext succ now s ident hh]
  exact runRetries_bounds succ settings.retryBaseDelay settings.retryMaxDelay
    settings.maxRetryAttempts hmax

/-- A driver with a registered handler, used to instantiate C4. -/
def handlerOnlyState : DriverState :=
  { jobs := [], handlers := ["x"], activeJobs := []
    isRunning := true, refreshTimer := true, autoCleanupTimer := false
    dbSet := true, dbOpen := true, dbInit := true }

/-- Witness for C4 at an always-failing handler under the default retry
configuration. -/
theorem claim_c4_retry_bounds_witness :
    1 ≤ (executeJob sampleSettings sampleCronNext (fun _ => false) 0
          handlerOnlyState "x").invocations
    ∧ (executeJob sampleSettings sampleCronNext (fun _ => false) 0
          handlerOnlyState "x").invocations ≤ sampleSettings.maxRetryAttempts := by
  have h := claim_c4_retry_bounds sampleSettings sampleCronNext (fun _ => false)
    0 handlerOnlyState "x" (by decide) (by decide)
  exact ⟨h.1, h.2.1⟩

/-- Claim C3: when the post-execution read still finds the record active,
the firing increments run_count by exactly 1 and writes next_run and
last_run, and the resulting state is the same whatever the handler did on
each retry attempt — in particular the update is applied even when every
attempt failed. -/
theorem claim_c3_update_unconditional (settings : Settings)
    (cronNext : String → Nat → Option Nat) (succA succB : Nat → Bool)
    (now : Nat) (s : DriverState) (ident : String) (job : JobRecord) (nr : Nat)
    (hh : s.handlers.contains ident = true)
    (hfind : s.jobs.find? (gateActive ident) = some job)
    (hnr : computeNextRun cronNext now job = some nr) :
    (executeJob settings cronNext succA now s ident).state
        = (executeJob settings cronNext succB now s ident).state
    ∧ ∀ q ∈ (executeJob settings cronNext succA now s ident).state.jobs,
        q.identifier = ident →
          q.runCount = job.runCount + 1 ∧ q.nextRun = nr
          ∧ q.lastRun = some now := by
  constructor
  · rw [executeJob_eq settings cronNext succA now s ident hh,
      executeJob_eq settings cronNext succB now s ident hh]
  · rw [executeJob_eq settings cronNext succA now s ident hh]
    show ∀ q ∈ (postExecUpdate settings cronNext now s ident).jobs, _
    simp only [postExecUpdate, hfind, hnr]
    intro q hq hqid
    rcases List.mem_map.mp hq with ⟨j0, hj0, he⟩
    by_cases h : j0.identifier = ident
    · rw [if_pos h] at he
      rw [← he]
      exact ⟨rfl, rfl, rfl⟩
    · rw [if_neg h] at he
      rw [← he] at hqid
      exact absurd hqid h

/-- An active recurring job about to get its post-execution update. -/
def recJob : JobRecord :=
  { id := "uuid-3", cronExpression := some "*/5 * * * *", specificTime := none
    identifier := "r", status := .active, nextRun := 300, lastRun := none
    runCount := 7, createdAt := 0, updatedAt := 0 }

/-- Driver holding the active recurring job with its handler registered. -/
def recState : DriverState :=
  { jobs := [recJob], handlers := ["r"], activeJobs := [("r", 300)]
    isRunning := true, refreshTimer := true, autoCleanupTimer := false
    dbSet := true, dbOpen := true, dbInit := true }

/-- Witness for C3: the state after the firing is identical whether every
attempt failed or every attempt succeeded. -/
theorem claim_c3_update_unconditional_witness :
    (executeJob sampleSettings sampleCronNext (fun _ => false) 400 recState
        "r").state
      = (executeJob sampleSettings sampleCronNext (fun _ => true) 400 recState
        "r").state :=
  (claim_c3_update_unconditional sampleSettings sampleCronNext (fun _ => false)
    (fun _ => true) 400 recState "r" recJob 700 (by decide) (by decide)
    (by decide)).1

/-- Claim C7: a firing that finds an active one-shot record (null cron
expression, non-null specific_time) marks it completed with next_run kept
at specific_time, increments run_count to at least 1, records
last_run = now ≥ specific_time, and arms no timer for the identifier. -/
theorem claim_c7_oneshot_completion (settings : Settings)
    (cronNext : String → Nat → Option Nat) (succ : Nat → Bool) (now : Nat)
    (s : DriverState) (ident : String) (job : JobRecord) (t : Nat)
    (hh : s.handlers.contains ident = true)
    (hfind : s.jobs.find? (gateActive ident) = some job)
    (hcron : job.cronExpression = none)
    (hst : job.specificTime = some t)
    (ht : 0 < t) (hnow : t ≤ now) :
    (∀ q ∈ (executeJob settings cronNext succ now s ident).state.jobs,
        q.identifier = ident →
          q.status = Status.completed ∧ q.nextRun = t ∧ 1 ≤ q.runCount
          ∧ q.lastRun = some now ∧ t ≤ now)
    ∧ ∀ p ∈ (executeJob settings cronNext succ now s ident).state.activeJobs,
        p.1 ≠ ident := by
  have hct : cronTruthy job.cronExpression = false := by
    rw [hcron]
    rfl
  have htt : timeTruthy job.specificTime = true := by
    rw [hst]
    unfold timeTruthy
    simp only [decide_eq_true_eq]
    omega
  have hnr : computeNextRun cronNext now job = some t := by
    unfold computeNextRun
    rw [hct, hst]
    simp [timeTruthy]
    omega
  have hns : computeNewStatus job = Status.completed := by
    unfold computeNewStatus
    rw [hct, htt]
    simp
  rw [executeJob_eq settings cronNext succ now s ident hh]
  constructor
  · show ∀ q ∈ (postExecUpdate settings cronNext now s ident).jobs, _
    simp only [postExecUpdate, hfind, hnr, hns, hct, Bool.false_and,
      Bool.and_eq_true]
    intro q hq hqid
    rcases List.mem_map.mp hq with ⟨j0, hj0, he⟩
    by_cases h : j0.identifier = ident
    · rw [if_pos h] at he
      rw [← he]
      exact ⟨rfl, rfl, Nat.le_add_left 1 job.runCount, rfl, hnow⟩
    · rw [if_neg h] at he
      rw [← he] at hqid
      exact absurd hqid h
  · show ∀ p ∈ (postExecUpdate settings cronNext now s ident).activeJobs, _
    simp only [postExecUpdate, hfind, hnr, hct, Bool.false_and, if_neg,
      Bool.false_eq_true, not_false_iff]
    intro p hp
    have := List.of_mem_filter hp
    simpa using this

/-- An active one-shot job whose timer has just fired. -/
def oneShotJob : JobRecord :=
  { id := "uuid-7", cronExpression := none, specificTime := some 80
    identifier := "o", status := .active, nextRun := 80, lastRun := none
    runCount := 0, createdAt := 0, updatedAt := 0 }

/-- Driver holding the one-shot job with its handler registered and its
timer armed. -/
def oneShotState : DriverState :=
  { jobs := [oneShotJob], handlers := ["o"], activeJobs := [("o", 80)]
    isRunning := true, refreshTimer := true, autoCleanupTimer := false
    dbSet := true, dbOpen := true, dbInit := true }

/-- The record the one-shot firing writes back at now = 90. -/
def oneShotDone : JobRecord :=
  { oneShotJob with status := .completed, lastRun := some 90
                    runCount := oneShotJob.runCount + 1, updatedAt := 90 }

/-- Witness for C7 at the concrete one-shot firing. -/
theorem claim_c7_oneshot_completion_witness :
    oneShotDone.status = Status.completed ∧ oneShotDone.nextRun = 80
    ∧ 1 ≤ oneShotDone.runCount ∧ oneShotDone.lastRun = some 90 ∧ 80 ≤ 90 :=
  (claim_c7_oneshot_completion sampleSettings sampleCronNext (fun _ => true) 90
    oneShotState "o" oneShotJob 80 (by decide) (by decide) rfl rfl (by decide)
    (by decide)).1 oneShotDone (by decide) rfl

/-- Claim C10: getJobsInWindow counts every active job with
next_run ≤ now + lookAheadWindow and imposes no lower bound, so an active
job whose next_run is at or before now is counted — yet the chunk loader,
whose query additionally requires now < next_run, never arms a timer for
it. -/
theorem claim_c10_window_asymmetry (settings : Settings) (now : Nat)
    (s : DriverState) (j : JobRecord)
    (hnd : (s.jobs.map JobRecord.identifier).Nodup)
    (hmem : j ∈ s.jobs) (hact : j.status = Status.active)
    (hdue : j.nextRun ≤ now) :
    windowPred (now + settings.lookAheadWindow) j = true
    ∧ 1 ≤ getJobsInWindow settings now s.jobs
    ∧ loaderPred now (now + settings.lookAheadWindow) j = false
    ∧ ∀ p ∈ (loadAndScheduleChunk settings now s).activeJobs,
        p.1 ≠ j.identifier := by
  have hwp : windowPred (now + settings.lookAheadWindow) j = true := by
    unfold windowPred
    simp only [Bool.and_eq_true, decide_eq_true_eq]
    exact ⟨hact, Nat.le_trans hdue (Nat.le_add_right now _)⟩
  have hlp : loaderPred now (now + settings.lookAheadWindow) j = false := by
    unfold loaderPred
    simp only [Bool.and_eq_false_iff]
    right
    simp only [decide_eq_false_iff_not, Nat.not_lt]
    exact hdue
  refine ⟨hwp, ?_, hlp, ?_⟩
  · unfold getJobsInWindow
    exact List.length_pos_of_mem (List.mem_filter.mpr ⟨hmem, hwp⟩)
  · intro p hp
    have hp2 : p ∈ armTimers s.handlers
        (chunkQuery now (now + settings.lookAheadWindow) settings.chunkSize
          s.jobs) ([] : TimerSet) := hp
    rcases mem_armTimers _ _ _ p hp2 with h0 | ⟨q, hq, he⟩
    · exact absurd h0 (List.not_mem_nil p)
    · rcases chunkQuery_subset now (now + settings.lookAheadWindow)
        settings.chunkSize s.jobs q hq with ⟨hqmem, hqpred⟩
      intro hcontra
      have hqj : q = j := List.inj_on_of_nodup_map hnd hqmem hmem
        (by rw [← he, hcontra])
      rw [hqj] at hqpred
      rw [hqpred] at hlp
      exact absurd hlp (by decide)

/-- An active job already due (next_run at or before now = 10). -/
def dueJob : JobRecord :=
  { id := "uuid-d", cronExpression := some "* * * * *", specificTime := none
    identifier := "d", status := .active, nextRun := 5, lastRun := some 5
    runCount := 1, createdAt := 0, updatedAt := 5 }

/-- Driver holding the overdue active job with its handler registered. -/
def dueState : DriverState :=
  { jobs := [dueJob], handlers := ["d"], activeJobs := []
    isRunning := true, refreshTimer := true, autoCleanupTimer := false
    dbSet := true, dbOpen := true, dbInit := true }

/-- Witness for C10 at the overdue job: counted by the window query but
rejected by the loader predicate. -/
theorem claim_c10_window_asymmetry_witness :
    windowPred (10 + sampleSettings.lookAheadWindow) dueJob = true
    ∧ 1 ≤ getJobsInWindow sampleSettings 10 dueState.jobs
    ∧ loaderPred 10 (10 + sampleSettings.lookAheadWindow) dueJob = false := by
  have h := claim_c10_window_asymmetry sampleSettings 10 dueState dueJob
    (by decide) (by decide) rfl (by decide)
  exact ⟨h.1, h.2.1, h.2.2.1⟩

end Hypercron
